import Mathlib

/-!
# Verification of the uni-verse-notes data/access model

Shallow embedding of the repository's data model and operations:

* the final database schema and row-level-security policies from
  `supabase/migrations` (the last migration, `20250726094909`, establishes the
  chapter-keyed shape: `chapters.subject_id → subjects(id) ON DELETE CASCADE`,
  `notes.chapter_id → chapters(id) ON DELETE CASCADE`,
  `videos.chapter_id → chapters(id) ON DELETE CASCADE`);
* the client operations from `src/pages/Dashboard.tsx` (content reads,
  chapter grouping, YouTube id extraction), `src/pages/Admin.tsx`
  (create/upload/delete mutations, user toggles) and
  `src/contexts/AuthContext.tsx` (user-record fetch).

Rows are modelled as structures over `String`/`Bool`/`Nat` (timestamps as
`Nat`), tables as lists of rows, and each operation as a pure function;
fallible external effects (storage upload, database insert/update) are
modelled by explicit success flags, and server-assigned values (ids, the
current time) by explicit parameters.
-/

namespace UniVerse

/-- A row of `public.users` (migration `20250724084725` initial schema plus the
`role` column added by migration `20250725123958`, default `'user'`). -/
structure UserRow where
  id : String
  email : String
  access : Bool
  role : String
  created_at : Nat
deriving DecidableEq

/-- A row of `public.subjects` (`id`, `name`, `description`, and the
`image_url` column added by migration `20250726094909`). -/
structure SubjectRow where
  id : String
  name : String
  description : String
  image_url : String
  created_at : Nat
deriving DecidableEq

/-- A row of `public.chapters` (migration `20250726094909`):
`subject_id` references `subjects(id) ON DELETE CASCADE`. -/
structure ChapterRow where
  id : String
  subject_id : String
  title : String
  description : String
  created_at : Nat
deriving DecidableEq

/-- A row of `public.notes` in the final schema: `chapter_id` references
`chapters(id) ON DELETE CASCADE` and is NOT NULL (migration `20250726094909`
drops the earlier `subject_id` column). -/
structure NoteRow where
  id : String
  chapter_id : String
  title : String
  pdf_url : String
  created_at : Nat
deriving DecidableEq

/-- A row of `public.videos` in the final schema: `chapter_id` references
`chapters(id) ON DELETE CASCADE` (migration `20250726094909`). -/
structure VideoRow where
  id : String
  chapter_id : String
  title : String
  youtube_url : String
  created_at : Nat
deriving DecidableEq

/-- The database state: the five tables plus the object keys present in the
`pdfs` storage bucket. -/
structure Db where
  users : List UserRow
  subjects : List SubjectRow
  chapters : List ChapterRow
  notes : List NoteRow
  videos : List VideoRow
  storage : List String
deriving DecidableEq

/-! ## Row-level-security predicates (migrations) -/

/-- `public.user_has_access(user_email)`: true iff some `users` row has this
email and `access = true` (migration `20250724084725`, re-created with a fixed
search path by `20250724084741`). -/
def user_has_access (email : String) (users : List UserRow) : Bool :=
  users.any fun u => u.email == email && u.access

/-- `public.is_admin()` in its final form (migration `20250725123958`): true
iff some `users` row has the caller's email and `role = 'admin'`. -/
def is_admin (email : String) (users : List UserRow) : Bool :=
  users.any fun u => u.email == email && u.role == "admin"

/-- The SELECT policy condition shared by the four content tables: the
permissive policies "Users with access can view …" (`user_has_access`) and
"Admins can manage …" (`is_admin`) are OR-ed by the policy engine. -/
def contentSelectAllowed (email : String) (users : List UserRow) : Bool :=
  user_has_access email users || is_admin email users

/-- Rows of `subjects` visible to a caller under row-level security. -/
def selectSubjects (email : String) (db : Db) : List SubjectRow :=
  db.subjects.filter fun _ => contentSelectAllowed email db.users

/-- Rows of `chapters` visible to a caller under row-level security. -/
def selectChapters (email : String) (db : Db) : List ChapterRow :=
  db.chapters.filter fun _ => contentSelectAllowed email db.users

/-- Rows of `notes` visible to a caller under row-level security. -/
def selectNotes (email : String) (db : Db) : List NoteRow :=
  db.notes.filter fun _ => contentSelectAllowed email db.users

/-- Rows of `videos` visible to a caller under row-level security. -/
def selectVideos (email : String) (db : Db) : List VideoRow :=
  db.videos.filter fun _ => contentSelectAllowed email db.users

/-! ## Content reads (Dashboard.tsx / SubjectDetail `fetchContent`, `fetchSubjectData`) -/

/-- Comparison used by the `subjects` read: `.order('name')`. -/
def subjectNameLe (a b : SubjectRow) : Prop := a.name ≤ b.name

instance : DecidableRel subjectNameLe := fun a b =>
  inferInstanceAs (Decidable (a.name ≤ b.name))

instance : IsTotal SubjectRow subjectNameLe := ⟨fun a b => le_total a.name b.name⟩

instance : IsTrans SubjectRow subjectNameLe := ⟨fun _ _ _ h h' => le_trans h h'⟩

/-- Comparison used by the `chapters` read: `.order('created_at')`
(Dashboard.tsx line 250). -/
def chapterCreatedLe (a b : ChapterRow) : Prop := a.created_at ≤ b.created_at

instance : DecidableRel chapterCreatedLe := fun a b =>
  inferInstanceAs (Decidable (a.created_at ≤ b.created_at))

instance : IsTotal ChapterRow chapterCreatedLe := ⟨fun a b => le_total a.created_at b.created_at⟩

instance : IsTrans ChapterRow chapterCreatedLe := ⟨fun _ _ _ h h' => le_trans h h'⟩

/-- Title order on chapters: the order the specification ascribes to the
chapters read. -/
def chapterTitleLe (a b : ChapterRow) : Prop := a.title ≤ b.title

instance : DecidableRel chapterTitleLe := fun a b =>
  inferInstanceAs (Decidable (a.title ≤ b.title))

/-- Comparison used by the `notes` read: `.order('title')`. -/
def noteTitleLe (a b : NoteRow) : Prop := a.title ≤ b.title

instance : DecidableRel noteTitleLe := fun a b =>
  inferInstanceAs (Decidable (a.title ≤ b.title))

instance : IsTotal NoteRow noteTitleLe := ⟨fun a b => le_total a.title b.title⟩

instance : IsTrans NoteRow noteTitleLe := ⟨fun _ _ _ h h' => le_trans h h'⟩

/-- Comparison used by the `videos` read: `.order('title')`. -/
def videoTitleLe (a b : VideoRow) : Prop := a.title ≤ b.title

instance : DecidableRel videoTitleLe := fun a b =>
  inferInstanceAs (Decidable (a.title ≤ b.title))

instance : IsTotal VideoRow videoTitleLe := ⟨fun a b => le_total a.title b.title⟩

instance : IsTrans VideoRow videoTitleLe := ⟨fun _ _ _ h h' => le_trans h h'⟩

/-- `fetchContent` subjects query (Dashboard.tsx lines 48-51):
`from('subjects').select('*').order('name')`. -/
def listSubjects (db : Db) : List SubjectRow :=
  List.insertionSort subjectNameLe db.subjects

/-- `fetchSubjectData` chapters query (Dashboard.tsx lines 246-250):
`from('chapters').select('*').eq('subject_id', subjectId).order('created_at')`. -/
def listChaptersForSubject (sid : String) (db : Db) : List ChapterRow :=
  List.insertionSort chapterCreatedLe (db.chapters.filter fun c => c.subject_id == sid)

/-- `fetchSubjectData` notes query (Dashboard.tsx lines 259-263):
`from('notes').select('*').in('chapter_id', chapterIds).order('title')`. -/
def listNotesForChapters (ids : List String) (db : Db) : List NoteRow :=
  List.insertionSort noteTitleLe (db.notes.filter fun n => ids.contains n.chapter_id)

/-- `fetchSubjectData` videos query (Dashboard.tsx lines 268-272):
`from('videos').select('*').in('chapter_id', chapterIds).order('title')`. -/
def listVideosForChapters (ids : List String) (db : Db) : List VideoRow :=
  List.insertionSort videoTitleLe (db.videos.filter fun v => ids.contains v.chapter_id)

/-! ## Chapter grouping (Dashboard.tsx SubjectDetail lines 289-293) -/

/-- `getChapterNotes`: filter the fetched notes by `chapter_id`. -/
def getChapterNotes (notes : List NoteRow) (chapterId : String) : List NoteRow :=
  notes.filter fun n => n.chapter_id == chapterId

/-- `getChapterVideos`: filter the fetched videos by `chapter_id`. -/
def getChapterVideos (videos : List VideoRow) (chapterId : String) : List VideoRow :=
  videos.filter fun v => v.chapter_id == chapterId

/-! ## Admin mutation surface (Admin.tsx create/upload operations)

Each handler validates its form locally, then issues the external writes;
the storage upload and the database insert can each fail, modelled by the
explicit flags `uploadOk` / `insertOk`.  Toasts are reduced to their
description text; server-assigned ids and the clock are parameters. -/

/-- Result of one Admin.tsx mutation handler: the database-plus-storage state
afterwards and the toast shown. -/
structure MutationResult where
  db : Db
  toasts : List String
deriving DecidableEq

/-- JavaScript `String.prototype.trim()`: strip leading and trailing
whitespace (embedded over the character list so that it evaluates). -/
def jsTrim (s : String) : String :=
  ⟨((s.toList.dropWhile Char.isWhitespace).reverse.dropWhile Char.isWhitespace).reverse⟩

/-- The `newSubject` form state (Admin.tsx line 70). -/
structure SubjectForm where
  name : String
  description : String
  image_url : String
deriving DecidableEq

/-- The `newChapter` form state (line 71). -/
structure ChapterForm where
  title : String
  description : String
  subject_id : String
deriving DecidableEq

/-- The `newNote` form state (line 72); `file` is the selected file's name
when one is chosen. -/
structure NoteForm where
  title : String
  chapter_id : String
  file : Option String
deriving DecidableEq

/-- The `newVideo` form state (line 73). -/
structure VideoForm where
  title : String
  youtube_url : String
  chapter_id : String
deriving DecidableEq

/-- `createSubject` (Admin.tsx lines 210-242): blocked with a message when
`!newSubject.name.trim()`; otherwise one insert, whose failure is surfaced. -/
def createSubject (form : SubjectForm) (newId : String) (now : Nat)
    (insertOk : Bool) (db : Db) : MutationResult :=
  if jsTrim form.name == "" then ⟨db, ["Subject name is required"]⟩
  else if insertOk then
    ⟨{ db with subjects := db.subjects ++
        [⟨newId, form.name, form.description, form.image_url, now⟩] },
      ["Subject created successfully"]⟩
  else ⟨db, ["Failed to create subject"]⟩

/-- `createChapter` (lines 244-276): blocked when `!newChapter.title.trim()`
or no subject is selected. -/
def createChapter (form : ChapterForm) (newId : String) (now : Nat)
    (insertOk : Bool) (db : Db) : MutationResult :=
  if jsTrim form.title == "" || form.subject_id == "" then
    ⟨db, ["Chapter title and subject are required"]⟩
  else if insertOk then
    ⟨{ db with chapters := db.chapters ++
        [⟨newId, form.subject_id, form.title, form.description, now⟩] },
      ["Chapter created successfully"]⟩
  else ⟨db, ["Failed to create chapter"]⟩

/-- `file.name.split('.').pop()` — the extension used for the storage key
(Admin.tsx line 290). -/
def fileExt (name : String) : String :=
  ⟨((name.toList.reverse.takeWhile fun c => !(c == '.')).reverse)⟩

/-- The storage key `` `${Date.now()}.${fileExt}` `` (line 291). -/
def noteFileName (now : Nat) (form : NoteForm) : String :=
  toString now ++ "." ++ fileExt (form.file.getD "")

/-- The public URL the storage client derives from the bucket and key
(lines 300-302). -/
def getPublicUrl (fname : String) : String := "pdfs/" ++ fname

/-- `uploadNote` (lines 278-330): blocked when title, chapter or file is
missing; otherwise the binary is uploaded to storage first and the `notes`
row is inserted second.  A failed upload throws before the insert; a failed
insert throws after the upload with no compensating delete of the stored
file. -/
def uploadNote (form : NoteForm) (newId : String) (now : Nat)
    (uploadOk insertOk : Bool) (db : Db) : MutationResult :=
  if jsTrim form.title == "" || form.chapter_id == "" || form.file.isNone then
    ⟨db, ["Title, chapter, and PDF file are required"]⟩
  else if !uploadOk then ⟨db, ["Failed to upload note"]⟩
  else if !insertOk then
    ⟨{ db with storage := db.storage ++ [noteFileName now form] },
      ["Failed to upload note"]⟩
  else
    ⟨{ db with
        storage := db.storage ++ [noteFileName now form]
        notes := db.notes ++ [⟨newId, form.chapter_id, form.title,
          getPublicUrl (noteFileName now form), now⟩] },
      ["Note uploaded successfully"]⟩

/-- `createVideo` (lines 332-364): blocked when title, URL or chapter is
missing; otherwise one insert. -/
def createVideo (form : VideoForm) (newId : String) (now : Nat)
    (insertOk : Bool) (db : Db) : MutationResult :=
  if jsTrim form.title == "" || jsTrim form.youtube_url == "" || form.chapter_id == "" then
    ⟨db, ["Title, YouTube URL, and chapter are required"]⟩
  else if insertOk then
    ⟨{ db with videos := db.videos ++
        [⟨newId, form.chapter_id, form.title, form.youtube_url, now⟩] },
      ["Video created successfully"]⟩
  else ⟨db, ["Failed to create video"]⟩

/-! ## Admin self-demotion (Admin.tsx `toggleUserAdmin`, AuthContext.tsx) -/

/-- The client-side user record as Admin.tsx declares it (`interface User`,
lines 16-23): it carries an `is_admin` flag, which is what the component
reads and writes. -/
structure AdminUser where
  id : String
  email : String
  access : Bool
  is_admin : Bool
  role : String
  created_at : Nat
deriving DecidableEq

/-- The keys of the value object AuthContext provides through `useAuth()`
(AuthContext.tsx `AuthContextType`, lines 12-18, and `value`, lines 94-100):
exactly `user`, `session`, `userData`, `loading`, `signOut`. -/
def authContextProvidedKeys : List String :=
  ["user", "session", "userData", "loading", "signOut"]

/-- Admin.tsx line 58 destructures `refetchUserData` from `useAuth()`; the
binding holds a callable function only if AuthContext provides that key,
otherwise it is `undefined` and calling it throws a TypeError. -/
def refetchUserDataDefined : Bool :=
  authContextProvidedKeys.contains "refetchUserData"

/-- Client state around `toggleUserAdmin`: the `users` list state, the auth
cache `userData`, the current route, and the toasts shown so far. -/
structure AdminState where
  users : List AdminUser
  userData : Option AdminUser
  route : String
  toasts : List String
deriving DecidableEq

/-- `toggleUserAdmin` (Admin.tsx lines 174-208).  With `updateOk = false` the
update error is thrown and caught.  On success the local list is re-mapped;
then, if the toggled row is the caller's own, the code awaits
`refetchUserData()`: when that binding is undefined the call throws, the
catch block shows the error toast, and the refetch, the `navigate('/')` and
the success toast are all skipped.  `refetchedData` is the row a working
refetch would store. -/
def toggleUserAdmin (userId : String) (currentIsAdmin : Bool) (updateOk : Bool)
    (refetchedData : Option AdminUser) (st : AdminState) : AdminState :=
  if !updateOk then
    { st with toasts := st.toasts ++ ["Failed to update user admin status"] }
  else
    let users2 := st.users.map fun u =>
      if u.id == userId then { u with is_admin := !currentIsAdmin } else u
    let isSelf := match st.userData with
      | some me => me.id == userId
      | none => false
    if isSelf then
      if refetchUserDataDefined then
        if currentIsAdmin then
          { users := users2
            userData := refetchedData
            route := "/"
            toasts := st.toasts ++ ["User removed from admin"] }
        else
          { users := users2
            userData := refetchedData
            route := st.route
            toasts := st.toasts ++ ["User promoted to admin"] }
      else
        { st with
          users := users2
          toasts := st.toasts ++ ["Failed to update user admin status"] }
    else
      { st with
        users := users2
        toasts := st.toasts ++ [if currentIsAdmin then "User removed from admin"
          else "User promoted to admin"] }

/-- A signed-in admin on the admin page, about to toggle their own switch. -/
def c3State : AdminState :=
  { users := [⟨"u1", "admin@x.com", true, true, "admin", 0⟩]
    userData := some ⟨"u1", "admin@x.com", true, true, "admin", 0⟩
    route := "/admin"
    toasts := [] }

/-! ## Cascade delete (Admin.tsx `deleteSubject` + FK actions) -/

/-- `deleteSubject` (Admin.tsx lines 366-389) issues a single
`delete from subjects where id = subjectId`; the database then cascades along
`chapters.subject_id → subjects(id) ON DELETE CASCADE` and
`notes.chapter_id / videos.chapter_id → chapters(id) ON DELETE CASCADE`
(migration `20250726094909`).  No storage object is touched. -/
def deleteSubject (sid : String) (db : Db) : Db :=
  let deadChapterIds := (db.chapters.filter fun c => c.subject_id == sid).map ChapterRow.id
  { db with
    subjects := db.subjects.filter fun s => !(s.id == sid)
    chapters := db.chapters.filter fun c => !(c.subject_id == sid)
    notes := db.notes.filter fun n => !(deadChapterIds.contains n.chapter_id)
    videos := db.videos.filter fun v => !(deadChapterIds.contains v.chapter_id) }

/-- Referential integrity of the schema's three foreign keys: every chapter's
subject exists, and every note's and video's chapter exists.  A content row
violating its clause is exactly an orphaned row. -/
def Db.wf (db : Db) : Prop :=
  (∀ c ∈ db.chapters, ∃ s ∈ db.subjects, s.id = c.subject_id) ∧
  (∀ n ∈ db.notes, ∃ c ∈ db.chapters, c.id = n.chapter_id) ∧
  (∀ v ∈ db.videos, ∃ c ∈ db.chapters, c.id = v.chapter_id)

instance (db : Db) : Decidable db.wf := by
  unfold Db.wf; infer_instance

/-- A concrete database for witnesses: subject Math with chapter Algebra,
one note, one video, one stored file, plus a second unrelated subject. -/
def exDb : Db :=
  { users := [⟨"u1", "admin@x.com", true, "admin", 0⟩,
              ⟨"u2", "student@x.com", false, "user", 1⟩]
    subjects := [⟨"s1", "Math", "", "", 0⟩, ⟨"s2", "Physics", "", "", 1⟩]
    chapters := [⟨"c1", "s1", "Algebra", "", 0⟩, ⟨"c2", "s2", "Mechanics", "", 1⟩]
    notes := [⟨"n1", "c1", "Intro.pdf", "pdfs/1.pdf", 0⟩]
    videos := [⟨"v1", "c2", "Lecture 1", "https://youtu.be/abc", 0⟩]
    storage := ["1.pdf"] }

/-- A database whose chapters for subject `s1` are in creation order `B`, `A`:
their titles are against alphabetical order. -/
def c4Db : Db :=
  { users := []
    subjects := [⟨"s1", "Math", "", "", 0⟩]
    chapters := [⟨"c1", "s1", "B", "", 0⟩, ⟨"c2", "s1", "A", "", 1⟩]
    notes := []
    videos := []
    storage := [] }

/-! ## C7: lazy user creation keeps one record per email -/

/-- `public.handle_new_user()` (initial migration, re-created by
`20250724084741`): on auth signup,
`INSERT INTO public.users (email, access) VALUES (NEW.email, false)
ON CONFLICT (email) DO NOTHING`.  The conflict target is the UNIQUE
constraint on `email`; `role` takes its column default `'user'`
(migration `20250725123958`); the server-assigned `id` and `created_at` are
explicit parameters here. -/
def handle_new_user (newId : String) (now : Nat) (email : String)
    (users : List UserRow) : List UserRow :=
  if users.any fun u => u.email == email then users
  else users ++ [⟨newId, email, false, "user", now⟩]

/-- One `users` record per email: all emails in the table are distinct. -/
def uniqueEmails (users : List UserRow) : Prop :=
  users.Pairwise fun a b => a.email ≠ b.email

instance (users : List UserRow) : Decidable (uniqueEmails users) := by
  unfold uniqueEmails; infer_instance

/-! ## C9: a missing users row behaves like access=false -/

/-- Result of the `.single()` user fetch in `AuthContext.tsx fetchUserData`:
either a row (`data`), or an error carrying a code; PostgREST reports the
no-row case as error code `PGRST116` with `data = null`. -/
inductive UserFetchResult where
  | row (u : UserRow)
  | fetchErr (code : String)
deriving DecidableEq

/-- `fetchUserData` (AuthContext.tsx lines 36-53): an error whose code is not
`'PGRST116'` is logged and the function returns, keeping the previously cached
value; otherwise `setUserData(data)` stores the row, or `null` when the no-row
code `PGRST116` arrived. -/
def fetchUserData (prev : Option UserRow) : UserFetchResult → Option UserRow
  | .row u => some u
  | .fetchErr code => if code == "PGRST116" then none else prev

/-- `userData?.access` — the optional-chaining test both Dashboard sites use. -/
def userDataAccess : Option UserRow → Bool
  | some u => u.access
  | none => false

/-- The three render states of `Dashboard` (Dashboard.tsx lines 60-172). -/
inductive DashboardView where
  | loadingView
  | accessPending
  | content
deriving DecidableEq

/-- Dashboard render choice (Dashboard.tsx lines 60-90): the loading spinner,
else the Access Pending card when `!userData?.access`, else the content. -/
def dashboardView (isLoading : Bool) (userData : Option UserRow) : DashboardView :=
  if isLoading then .loadingView
  else if !(userDataAccess userData) then .accessPending
  else .content

/-- Dashboard effect (lines 38-43): `fetchContent()` runs iff
`userData?.access`. -/
def dashboardFetchesContent (userData : Option UserRow) : Bool :=
  userDataAccess userData

/-! ## C10: YouTube video id extraction

`getYouTubeVideoId` (Dashboard.tsx SubjectDetail lines 284-287) runs
`url.match(/(?:youtube\.com\/watch\?v=|youtu\.be\/)([^&\n?#]+)/)` and returns
capture group 1, or null when there is no match.  The regex engine scans for
the first position where an alternative literal matches and is followed by at
least one character outside `&`, newline, `?`, `#`; the capture is the greedy
run of such characters. -/

/-- A character the capture class `[^&\n?#]` accepts. -/
def isIdChar (c : Char) : Bool := !(c == '&' || c == '\n' || c == '?' || c == '#')

/-- The literal of the first regex alternative, `youtube.com/watch?v=`. -/
def ytWatchPat : List Char :=
  ['y', 'o', 'u', 't', 'u', 'b', 'e', '.', 'c', 'o', 'm', '/',
   'w', 'a', 't', 'c', 'h', '?', 'v', '=']

/-- The literal of the second regex alternative, `youtu.be/`. -/
def ytShortPat : List Char := ['y', 'o', 'u', 't', 'u', '.', 'b', 'e', '/']

/-- One alternative applied at the current position: the literal `pat`
followed by the greedy, non-empty run matched by `([^&\n?#]+)`. -/
def ytMatchPatAt (pat s : List Char) : Option (List Char) :=
  if pat.isPrefixOf s then
    if ((s.drop pat.length).takeWhile isIdChar).isEmpty then none
    else some ((s.drop pat.length).takeWhile isIdChar)
  else none

/-- Both alternatives at the current position, in the order the regex lists
them. -/
def ytMatchAt (s : List Char) : Option (List Char) :=
  match ytMatchPatAt ytWatchPat s with
  | some cap => some cap
  | none => ytMatchPatAt ytShortPat s

/-- The scan of `url.match`: try each position left to right, return the first
capture, null when no position matches. -/
def getYouTubeVideoId : List Char → Option (List Char)
  | [] => none
  | c :: rest =>
    match ytMatchAt (c :: rest) with
    | some cap => some cap
    | none => getYouTubeVideoId rest

/-- SubjectDetail video rendering (Dashboard.tsx lines 434-455): the thumbnail
image and Watch overlay sit inside `{videoId && (...)}`, so they are emitted
iff the extracted id is non-null. -/
def videoThumbnailRendered (v : VideoRow) : Bool :=
  (getYouTubeVideoId v.youtube_url.toList).isSome

/-- The claim's containment condition: some position of the string starts with
one of the two pattern literals. -/
def containsYtPat : List Char → Bool
  | [] => false
  | c :: rest =>
    ytWatchPat.isPrefixOf (c :: rest) || ytShortPat.isPrefixOf (c :: rest) ||
      containsYtPat rest

end UniVerse

namespace UniVerse

/-! ## C1: cascade delete leaves no orphans and leaves storage alone -/

/-- C1. Deleting a Subject cascade-deletes every Chapter referencing it and,
transitively, every Note and Video of those Chapters: on a referentially
intact database, after `deleteSubject sid` the subject is gone, no chapter of
it remains, referential integrity still holds (zero orphaned chapter, note or
video rows), and the storage bucket is untouched. -/
theorem deleteSubject_cascades_no_orphans (db : Db) (sid : String) (hwf : db.wf) :
    (deleteSubject sid db).wf ∧
    (∀ s ∈ (deleteSubject sid db).subjects, s.id ≠ sid) ∧
    (∀ c ∈ (deleteSubject sid db).chapters, c.subject_id ≠ sid) ∧
    (deleteSubject sid db).storage = db.storage := by
  obtain ⟨hch, hnt, hvd⟩ := hwf
  refine ⟨⟨?_, ?_, ?_⟩, ?_, ?_, rfl⟩
  · -- chapters that survive still point at a surviving subject
    intro c hc
    simp only [deleteSubject, List.mem_filter, Bool.not_eq_eq_eq_not, Bool.not_true,
      beq_eq_false_iff_ne, ne_eq] at hc ⊢
    obtain ⟨hmem, hcs⟩ := hc
    obtain ⟨s, hs, hsid⟩ := hch c hmem
    exact ⟨s, ⟨hs, by simpa [hsid] using hcs⟩, hsid⟩
  · -- notes that survive still point at a surviving chapter
    intro n hn
    simp only [deleteSubject, List.mem_filter, Bool.not_eq_eq_eq_not, Bool.not_true] at hn ⊢
    obtain ⟨hmem, hdead⟩ := hn
    obtain ⟨c, hc, hcid⟩ := hnt n hmem
    refine ⟨c, ⟨hc, ?_⟩, hcid⟩
    -- if n's chapter belonged to sid its id would be in the dead list
    rw [beq_eq_false_iff_ne]
    intro hcs
    simp only [List.contains_eq_any_beq, List.any_eq_false, List.mem_map, List.mem_filter,
      beq_iff_eq, not_exists, not_and, forall_exists_index, and_imp] at hdead
    exact hdead n.chapter_id c hc (by simp [hcs]) hcid rfl
  · -- videos that survive still point at a surviving chapter
    intro v hv
    simp only [deleteSubject, List.mem_filter, Bool.not_eq_eq_eq_not, Bool.not_true] at hv ⊢
    obtain ⟨hmem, hdead⟩ := hv
    obtain ⟨c, hc, hcid⟩ := hvd v hmem
    refine ⟨c, ⟨hc, ?_⟩, hcid⟩
    rw [beq_eq_false_iff_ne]
    intro hcs
    simp only [List.contains_eq_any_beq, List.any_eq_false, List.mem_map, List.mem_filter,
      beq_iff_eq, not_exists, not_and, forall_exists_index, and_imp] at hdead
    exact hdead v.chapter_id c hc (by simp [hcs]) hcid rfl
  · intro s hs
    simp only [deleteSubject, List.mem_filter, Bool.not_eq_eq_eq_not, Bool.not_true,
      beq_eq_false_iff_ne, ne_eq] at hs
    exact hs.2
  · intro c hc
    simp only [deleteSubject, List.mem_filter, Bool.not_eq_eq_eq_not, Bool.not_true,
      beq_eq_false_iff_ne, ne_eq] at hc
    exact hc.2

/-- Witness for C1 at the concrete database `exDb`. -/
theorem deleteSubject_cascades_no_orphans_witness :
    (deleteSubject "s1" exDb).wf ∧
    (∀ s ∈ (deleteSubject "s1" exDb).subjects, s.id ≠ "s1") ∧
    (∀ c ∈ (deleteSubject "s1" exDb).chapters, c.subject_id ≠ "s1") ∧
    (deleteSubject "s1" exDb).storage = exDb.storage :=
  deleteSubject_cascades_no_orphans exDb "s1" (by decide)

/-! ## C2: access=false and role other than admin denies all content reads -/

/-- C2. For a caller whose unique `users` row has `access = false` and a role
other than `'admin'`, the row-level-security policies on `subjects`,
`chapters`, `notes` and `videos` return no rows: both `user_has_access` and
`is_admin` evaluate to false, so every content SELECT is empty.  This holds at
the data layer, independent of any client state. -/
theorem rls_denies_without_access (db : Db) (e : String) (u : UserRow)
    (hu : u ∈ db.users) (hemail : u.email = e) (hacc : u.access = false)
    (hrole : u.role ≠ "admin")
    (huniq : ∀ u' ∈ db.users, u'.email = e → u' = u) :
    selectSubjects e db = [] ∧ selectChapters e db = [] ∧
    selectNotes e db = [] ∧ selectVideos e db = [] := by
  have hdeny : contentSelectAllowed e db.users = false := by
    have hha : user_has_access e db.users = false := by
      rw [user_has_access, List.any_eq_false]
      intro u' hu'
      simp only [Bool.and_eq_true, beq_iff_eq, not_and]
      intro he'
      rw [huniq u' hu' he', hacc]
      simp
    have hna : is_admin e db.users = false := by
      rw [is_admin, List.any_eq_false]
      intro u' hu'
      simp only [Bool.and_eq_true, beq_iff_eq, not_and]
      intro he'
      rw [huniq u' hu' he']
      simpa using hrole
    simp [contentSelectAllowed, hha, hna]
  refine ⟨?_, ?_, ?_, ?_⟩ <;>
    simp [selectSubjects, selectChapters, selectNotes, selectVideos, hdeny]

/-- Witness for C2: in `exDb`, `student@x.com` has `access = false` and role
`'user'`, and sees no content rows. -/
theorem rls_denies_without_access_witness :
    selectSubjects "student@x.com" exDb = [] ∧ selectChapters "student@x.com" exDb = [] ∧
    selectNotes "student@x.com" exDb = [] ∧ selectVideos "student@x.com" exDb = [] :=
  rls_denies_without_access exDb "student@x.com" ⟨"u2", "student@x.com", false, "user", 1⟩
    (by decide) rfl rfl (by decide) (by decide)

/-! ## C4: ordering of the four content reads -/

/-- Counterexample to C4 as stated: the chapters read orders by `created_at`
(Dashboard.tsx line 250), not by `title`, so on `c4Db` it returns titles
`["B", "A"]`, which is not sorted by title. -/
theorem chapters_read_not_title_ordered :
    (listChaptersForSubject "s1" c4Db).map ChapterRow.title = ["B", "A"] ∧
    ¬ List.Sorted chapterTitleLe (listChaptersForSubject "s1" c4Db) := by
  constructor
  · rfl
  · intro h
    rw [show listChaptersForSubject "s1" c4Db =
        [⟨"c1", "s1", "B", "", 0⟩, ⟨"c2", "s1", "A", "", 1⟩] from rfl] at h
    have h3 : ("B" : String) ≤ "A" :=
      (List.sorted_cons.mp h).1 _ (List.mem_singleton.mpr rfl)
    rw [String.le_iff_toList_le] at h3
    exact absurd h3 (by decide)

/-- C4 amended: each content read deterministically returns the filtered rows
sorted by its key — subjects by `name`, notes and videos by `title`, but
chapters by `created_at`. -/
theorem content_reads_ordered (db : Db) (sid : String) (ids : List String) :
    List.Sorted subjectNameLe (listSubjects db) ∧
    (listSubjects db).Perm db.subjects ∧
    List.Sorted chapterCreatedLe (listChaptersForSubject sid db) ∧
    (listChaptersForSubject sid db).Perm
      (db.chapters.filter fun c => c.subject_id == sid) ∧
    List.Sorted noteTitleLe (listNotesForChapters ids db) ∧
    (listNotesForChapters ids db).Perm
      (db.notes.filter fun n => ids.contains n.chapter_id) ∧
    List.Sorted videoTitleLe (listVideosForChapters ids db) ∧
    (listVideosForChapters ids db).Perm
      (db.videos.filter fun v => ids.contains v.chapter_id) :=
  ⟨List.sorted_insertionSort subjectNameLe db.subjects,
   List.perm_insertionSort subjectNameLe db.subjects,
   List.sorted_insertionSort chapterCreatedLe _,
   List.perm_insertionSort chapterCreatedLe _,
   List.sorted_insertionSort noteTitleLe _,
   List.perm_insertionSort noteTitleLe _,
   List.sorted_insertionSort videoTitleLe _,
   List.perm_insertionSort videoTitleLe _⟩

/-! ## C8: chapter grouping is exact, no cross-chapter leakage -/

/-- C8. For every chapter `c` among the fetched chapters of a subject,
`getChapterNotes` applied to the fetched notes returns exactly the fetched
notes whose `chapter_id` equals `c.id` (likewise `getChapterVideos`), and
every returned row carries `c.id`, so nothing belonging to a different
chapter appears under `c`. -/
theorem chapter_grouping_exact (db : Db) (sid : String) (c : ChapterRow)
    (hc : c ∈ listChaptersForSubject sid db) :
    (∀ n, n ∈ getChapterNotes
        (listNotesForChapters ((listChaptersForSubject sid db).map ChapterRow.id) db) c.id ↔
      n ∈ listNotesForChapters ((listChaptersForSubject sid db).map ChapterRow.id) db ∧
        n.chapter_id = c.id) ∧
    (∀ v, v ∈ getChapterVideos
        (listVideosForChapters ((listChaptersForSubject sid db).map ChapterRow.id) db) c.id ↔
      v ∈ listVideosForChapters ((listChaptersForSubject sid db).map ChapterRow.id) db ∧
        v.chapter_id = c.id) ∧
    (∀ n ∈ getChapterNotes
        (listNotesForChapters ((listChaptersForSubject sid db).map ChapterRow.id) db) c.id,
      n.chapter_id = c.id) ∧
    (∀ v ∈ getChapterVideos
        (listVideosForChapters ((listChaptersForSubject sid db).map ChapterRow.id) db) c.id,
      v.chapter_id = c.id) := by
  refine ⟨?_, ?_, ?_, ?_⟩
  · intro n
    simp [getChapterNotes, List.mem_filter]
  · intro v
    simp [getChapterVideos, List.mem_filter]
  · intro n hn
    rw [getChapterNotes, List.mem_filter] at hn
    exact beq_iff_eq.mp hn.2
  · intro v hv
    rw [getChapterVideos, List.mem_filter] at hv
    exact beq_iff_eq.mp hv.2

/-- Witness for C8 at `exDb` with subject `s1` and its chapter `c1`. -/
theorem chapter_grouping_exact_witness :
    (∀ n, n ∈ getChapterNotes
        (listNotesForChapters ((listChaptersForSubject "s1" exDb).map ChapterRow.id) exDb)
        (ChapterRow.id ⟨"c1", "s1", "Algebra", "", 0⟩) ↔
      n ∈ listNotesForChapters ((listChaptersForSubject "s1" exDb).map ChapterRow.id) exDb ∧
        n.chapter_id = ChapterRow.id ⟨"c1", "s1", "Algebra", "", 0⟩) ∧
    (∀ v, v ∈ getChapterVideos
        (listVideosForChapters ((listChaptersForSubject "s1" exDb).map ChapterRow.id) exDb)
        (ChapterRow.id ⟨"c1", "s1", "Algebra", "", 0⟩) ↔
      v ∈ listVideosForChapters ((listChaptersForSubject "s1" exDb).map ChapterRow.id) exDb ∧
        v.chapter_id = ChapterRow.id ⟨"c1", "s1", "Algebra", "", 0⟩) ∧
    (∀ n ∈ getChapterNotes
        (listNotesForChapters ((listChaptersForSubject "s1" exDb).map ChapterRow.id) exDb)
        (ChapterRow.id ⟨"c1", "s1", "Algebra", "", 0⟩),
      n.chapter_id = ChapterRow.id ⟨"c1", "s1", "Algebra", "", 0⟩) ∧
    (∀ v ∈ getChapterVideos
        (listVideosForChapters ((listChaptersForSubject "s1" exDb).map ChapterRow.id) exDb)
        (ChapterRow.id ⟨"c1", "s1", "Algebra", "", 0⟩),
      v.chapter_id = ChapterRow.id ⟨"c1", "s1", "Algebra", "", 0⟩) :=
  chapter_grouping_exact exDb "s1" ⟨"c1", "s1", "Algebra", "", 0⟩ (by decide)

/-- On a table with distinct emails, a filter by one email keeps at most one
row. -/
theorem filter_email_length_le_one (users : List UserRow) (e : String)
    (huniq : uniqueEmails users) :
    (users.filter fun u => u.email == e).length ≤ 1 := by
  induction users with
  | nil => simp
  | cons u us ih =>
    rw [uniqueEmails, List.pairwise_cons] at huniq
    by_cases he : u.email = e
    · have hrest : us.filter (fun u => u.email == e) = [] := by
        rw [List.filter_eq_nil]
        intro a ha
        simp only [beq_iff_eq]
        intro hae
        exact huniq.1 a ha (he.trans hae.symm)
      simp [List.filter_cons, he, hrest]
    · simpa [List.filter_cons, he] using ih huniq.2

/-- C7. `handle_new_user` preserves the one-record-per-email invariant: on a
table with distinct emails it is a no-op when a row with the email exists,
otherwise it appends exactly one row with `access = false` and
`role = 'user'`; in both cases emails stay distinct and exactly one row with
that email remains. -/
theorem handle_new_user_one_per_email (newId : String) (now : Nat) (email : String)
    (users : List UserRow) (huniq : uniqueEmails users) :
    uniqueEmails (handle_new_user newId now email users) ∧
    ((∃ u ∈ users, u.email = email) → handle_new_user newId now email users = users) ∧
    ((∀ u ∈ users, u.email ≠ email) →
      handle_new_user newId now email users =
        users ++ [⟨newId, email, false, "user", now⟩]) ∧
    ((handle_new_user newId now email users).filter
      (fun u => u.email == email)).length = 1 := by
  by_cases hex : ∃ u ∈ users, u.email = email
  · obtain ⟨u, hu, hue⟩ := hex
    have hany : (users.any fun u => u.email == email) = true :=
      List.any_eq_true.mpr ⟨u, hu, by simp [hue]⟩
    have heq : handle_new_user newId now email users = users := by
      simp [handle_new_user, hany]
    refine ⟨heq.symm ▸ huniq, fun _ => heq, fun hall => absurd hue (hall u hu), ?_⟩
    rw [heq]
    refine le_antisymm (filter_email_length_le_one users email huniq) ?_
    have : u ∈ users.filter fun u => u.email == email :=
      List.mem_filter.mpr ⟨hu, by simp [hue]⟩
    exact List.length_pos.mpr (List.ne_nil_of_mem this)
  · push_neg at hex
    have hany : (users.any fun u => u.email == email) = false := by
      rw [List.any_eq_false]
      intro u hu
      simpa using hex u hu
    have heq : handle_new_user newId now email users =
        users ++ [⟨newId, email, false, "user", now⟩] := by
      simp [handle_new_user, hany]
    refine ⟨?_, ?_, fun _ => heq, ?_⟩
    · rw [heq, uniqueEmails, List.pairwise_append]
      refine ⟨huniq, List.pairwise_singleton _ _, ?_⟩
      intro a ha b hb
      rw [List.mem_singleton] at hb
      subst hb
      exact hex a ha
    · intro h
      obtain ⟨u, hu, hue⟩ := h
      exact absurd hue (hex u hu)
    · have hrest : users.filter (fun u => u.email == email) = [] := by
        rw [List.filter_eq_nil]
        intro a ha
        simpa using hex a ha
      rw [heq, List.filter_append, hrest]
      simp

/-- Witness for C7: a fresh signup on `exDb.users` appends one default row. -/
theorem handle_new_user_one_per_email_witness :
    uniqueEmails (handle_new_user "u3" 5 "new@x.com" exDb.users) ∧
    ((∃ u ∈ exDb.users, u.email = "new@x.com") →
      handle_new_user "u3" 5 "new@x.com" exDb.users = exDb.users) ∧
    ((∀ u ∈ exDb.users, u.email ≠ "new@x.com") →
      handle_new_user "u3" 5 "new@x.com" exDb.users =
        exDb.users ++ [⟨"u3", "new@x.com", false, "user", 5⟩]) ∧
    ((handle_new_user "u3" 5 "new@x.com" exDb.users).filter
      (fun u => u.email == "new@x.com")).length = 1 :=
  handle_new_user_one_per_email "u3" 5 "new@x.com" exDb.users (by decide)

/-- C9. The no-row result (`PGRST116`) is treated as a non-error: the cache
becomes `null`, the dashboard renders Access Pending and issues no content
read — exactly the behaviour for a user whose row has `access = false`. -/
theorem missing_user_row_like_no_access (prev : Option UserRow) (u : UserRow)
    (hu : u.access = false) :
    fetchUserData prev (.fetchErr "PGRST116") = none ∧
    dashboardView false (fetchUserData prev (.fetchErr "PGRST116")) =
      DashboardView.accessPending ∧
    dashboardFetchesContent (fetchUserData prev (.fetchErr "PGRST116")) = false ∧
    dashboardView false none = dashboardView false (some u) ∧
    dashboardFetchesContent none = dashboardFetchesContent (some u) := by
  refine ⟨rfl, rfl, rfl, ?_, ?_⟩ <;>
    simp [dashboardView, dashboardFetchesContent, userDataAccess, hu]

/-- Witness for C9 with a cached admin row as previous value and the
access-denied row of `exDb`. -/
theorem missing_user_row_like_no_access_witness :
    fetchUserData (some ⟨"u1", "admin@x.com", true, "admin", 0⟩)
      (.fetchErr "PGRST116") = none ∧
    dashboardView false (fetchUserData (some ⟨"u1", "admin@x.com", true, "admin", 0⟩)
      (.fetchErr "PGRST116")) = DashboardView.accessPending ∧
    dashboardFetchesContent (fetchUserData (some ⟨"u1", "admin@x.com", true, "admin", 0⟩)
      (.fetchErr "PGRST116")) = false ∧
    dashboardView false none = dashboardView false (some ⟨"u2", "student@x.com", false, "user", 1⟩) ∧
    dashboardFetchesContent none =
      dashboardFetchesContent (some ⟨"u2", "student@x.com", false, "user", 1⟩) :=
  missing_user_row_like_no_access (some ⟨"u1", "admin@x.com", true, "admin", 0⟩)
    ⟨"u2", "student@x.com", false, "user", 1⟩ rfl

/-- A `dropWhile` result is empty or starts with a character failing the
predicate. -/
theorem dropWhile_head_spec (p : Char → Bool) (l : List Char) :
    l.dropWhile p = [] ∨ ∃ d t, l.dropWhile p = d :: t ∧ p d = false := by
  induction l with
  | nil => exact Or.inl rfl
  | cons c cs ih =>
    by_cases h : p c
    · simpa [List.dropWhile_cons, h] using ih
    · exact Or.inr ⟨c, cs, by simp [List.dropWhile_cons, h], by simp [h]⟩

/-- Soundness of one alternative: a capture decomposes the input as
`pat ++ cap ++ rest` with `cap` a non-empty run of id characters and `rest`
not starting with one. -/
theorem ytMatchPatAt_some {pat s cap : List Char} (h : ytMatchPatAt pat s = some cap) :
    s = pat ++ cap ++ ((s.drop pat.length).dropWhile isIdChar) ∧ cap ≠ [] ∧
      (∀ c ∈ cap, isIdChar c = true) ∧
      ((s.drop pat.length).dropWhile isIdChar = [] ∨
        ∃ d t, (s.drop pat.length).dropWhile isIdChar = d :: t ∧ isIdChar d = false) := by
  rw [ytMatchPatAt] at h
  by_cases hpre : pat.isPrefixOf s = true
  · rw [if_pos hpre] at h
    by_cases hemp : ((s.drop pat.length).takeWhile isIdChar).isEmpty = true
    · rw [if_pos hemp] at h
      cases h
    · rw [if_neg hemp] at h
      have hcap := Option.some.inj h
      obtain ⟨t, ht⟩ := List.isPrefixOf_iff_prefix.mp hpre
      have hdrop : s.drop pat.length = t := by rw [← ht, List.drop_left]
      refine ⟨?_, ?_, ?_, dropWhile_head_spec isIdChar _⟩
      · rw [← hcap, hdrop, List.append_assoc, List.takeWhile_append_dropWhile, ht]
      · intro hnil
        rw [hcap, hnil] at hemp
        exact hemp rfl
      · intro c hc
        rw [← hcap] at hc
        exact List.mem_takeWhile_imp hc
  · rw [if_neg hpre] at h
    cases h

/-- Completeness of one alternative: a pattern literal followed by an id
character yields a capture. -/
theorem ytMatchPatAt_complete (pat : List Char) (c : Char) (rest : List Char)
    (hc : isIdChar c = true) :
    ytMatchPatAt pat (pat ++ c :: rest) = some (c :: rest.takeWhile isIdChar) := by
  rw [ytMatchPatAt]
  have hpre : pat.isPrefixOf (pat ++ c :: rest) = true :=
    List.isPrefixOf_iff_prefix.mpr (List.prefix_append pat (c :: rest))
  rw [if_pos hpre, List.drop_left, List.takeWhile_cons, hc]
  simp

/-- The first alternative never fires inside the second one: its sixth
character is `b` where `youtu.be/` has `.`. -/
theorem ytWatchPat_not_prefix_append (x : List Char) :
    ytWatchPat.isPrefixOf (ytShortPat ++ x) = false := by
  rw [ytWatchPat, ytShortPat]
  simp [List.isPrefixOf]

/-- If some suffix position matches, the whole scan returns a capture. -/
theorem getYouTubeVideoId_isSome_of_suffix (pre t : List Char)
    (h : ytMatchAt t ≠ none) : getYouTubeVideoId (pre ++ t) ≠ none := by
  induction pre with
  | nil =>
    cases t with
    | nil =>
      exact absurd (by rw [ytMatchAt]; rfl) h
    | cons c rest =>
      rw [List.nil_append, getYouTubeVideoId]
      cases hm : ytMatchAt (c :: rest) with
      | none => exact absurd hm h
      | some cap => simp
  | cons p pre ih =>
    rw [List.cons_append, getYouTubeVideoId]
    cases hm : ytMatchAt (p :: (pre ++ t)) with
    | none => exact ih
    | some cap => simp

/-- C10 amended, part A (completeness): whenever the string contains one of
the two pattern literals followed by at least one character outside
`&`, newline, `?`, `#`, the extraction returns a capture. -/
theorem getYouTubeVideoId_finds (s pre pat rest : List Char) (c : Char)
    (hs : s = pre ++ (pat ++ c :: rest))
    (hpat : pat = ytWatchPat ∨ pat = ytShortPat) (hc : isIdChar c = true) :
    getYouTubeVideoId s ≠ none := by
  subst hs
  refine getYouTubeVideoId_isSome_of_suffix pre (pat ++ c :: rest) ?_
  rw [ytMatchAt]
  cases hpat with
  | inl hw =>
    subst hw
    rw [ytMatchPatAt_complete ytWatchPat c rest hc]
    simp
  | inr hsh =>
    subst hsh
    cases hm : ytMatchPatAt ytWatchPat (ytShortPat ++ c :: rest) with
    | none =>
      simp only [hm]
      rw [ytMatchPatAt_complete ytShortPat c rest hc]
      simp
    | some cap => simp

/-- Soundness of one scan position: a capture decomposes the position's
suffix as pattern, capture, remainder. -/
theorem ytMatchAt_some {s cap : List Char} (h : ytMatchAt s = some cap) :
    ∃ pat rest, s = pat ++ cap ++ rest ∧ (pat = ytWatchPat ∨ pat = ytShortPat) ∧
      cap ≠ [] ∧ (∀ c ∈ cap, isIdChar c = true) ∧
      (rest = [] ∨ ∃ d t, rest = d :: t ∧ isIdChar d = false) := by
  rw [ytMatchAt] at h
  cases hw : ytMatchPatAt ytWatchPat s with
  | some cap' =>
    rw [hw] at h
    obtain rfl : cap' = cap := Option.some.inj h
    obtain ⟨h1, h2, h3, h4⟩ := ytMatchPatAt_some hw
    exact ⟨ytWatchPat, _, h1, Or.inl rfl, h2, h3, h4⟩
  | none =>
    rw [hw] at h
    obtain ⟨h1, h2, h3, h4⟩ := ytMatchPatAt_some h
    exact ⟨ytShortPat, _, h1, Or.inr rfl, h2, h3, h4⟩

/-- C10 amended, part B (soundness): a returned id always comes from an
occurrence of one of the two literals, is non-empty, consists of characters
outside `&`, newline, `?`, `#`, and is maximal (the remainder is empty or
starts with a terminator). -/
theorem getYouTubeVideoId_sound (s cap : List Char)
    (h : getYouTubeVideoId s = some cap) :
    ∃ pre pat rest, s = pre ++ pat ++ cap ++ rest ∧
      (pat = ytWatchPat ∨ pat = ytShortPat) ∧ cap ≠ [] ∧
      (∀ c ∈ cap, isIdChar c = true) ∧
      (rest = [] ∨ ∃ d t, rest = d :: t ∧ isIdChar d = false) := by
  induction s with
  | nil => cases h
  | cons c s ih =>
    rw [getYouTubeVideoId] at h
    cases hm : ytMatchAt (c :: s) with
    | some cap' =>
      rw [hm] at h
      obtain rfl : cap' = cap := Option.some.inj h
      obtain ⟨pat, rest, h1, h2, h3, h4, h5⟩ := ytMatchAt_some hm
      exact ⟨[], pat, rest, by simpa using h1, h2, h3, h4, h5⟩
    | none =>
      rw [hm] at h
      obtain ⟨pre, pat, rest, h1, h2, h3, h4, h5⟩ := ih h
      exact ⟨c :: pre, pat, rest, by simp [h1], h2, h3, h4, h5⟩

/-- C10 amended: `getYouTubeVideoId` returns a captured id exactly when the
input contains a pattern literal followed by at least one character outside
`&`, newline, `?`, `#`; the id is such a maximal non-empty run; and the
thumbnail with Watch overlay is rendered iff the result is non-null. -/
theorem getYouTubeVideoId_spec (v : VideoRow) (pre pat rest : List Char) (c : Char)
    (hs : v.youtube_url.toList = pre ++ (pat ++ c :: rest))
    (hpat : pat = ytWatchPat ∨ pat = ytShortPat) (hc : isIdChar c = true) :
    getYouTubeVideoId v.youtube_url.toList ≠ none ∧
    (∀ cap, getYouTubeVideoId v.youtube_url.toList = some cap →
      ∃ pre' pat' rest', v.youtube_url.toList = pre' ++ pat' ++ cap ++ rest' ∧
        (pat' = ytWatchPat ∨ pat' = ytShortPat) ∧ cap ≠ [] ∧
        (∀ d ∈ cap, isIdChar d = true) ∧
        (rest' = [] ∨ ∃ d t, rest' = d :: t ∧ isIdChar d = false)) ∧
    videoThumbnailRendered v = true := by
  refine ⟨getYouTubeVideoId_finds _ pre pat rest c hs hpat hc,
    fun cap hcap => getYouTubeVideoId_sound _ cap hcap, ?_⟩
  rw [videoThumbnailRendered]
  exact Option.isSome_iff_ne_none.mpr (getYouTubeVideoId_finds _ pre pat rest c hs hpat hc)

/-- Counterexample to C10 as stated: `youtu.be/#` contains the pattern
`youtu.be/`, yet the extraction returns null (and no thumbnail is rendered),
because the regex demands at least one captured character and `#` terminates
the class. -/
theorem yt_pattern_without_id_gives_null :
    containsYtPat ("youtu.be/#".toList) = true ∧
    getYouTubeVideoId ("youtu.be/#".toList) = none ∧
    videoThumbnailRendered ⟨"v9", "c1", "t", "youtu.be/#", 0⟩ = false := by
  refine ⟨by decide, by decide, by decide⟩

/-- Witness for C10 at the concrete URL `https://youtu.be/abc`. -/
theorem getYouTubeVideoId_spec_witness :
    getYouTubeVideoId (VideoRow.youtube_url
      ⟨"v1", "c2", "Lecture 1", "https://youtu.be/abc", 0⟩).toList ≠ none ∧
    (∀ cap, getYouTubeVideoId (VideoRow.youtube_url
        ⟨"v1", "c2", "Lecture 1", "https://youtu.be/abc", 0⟩).toList = some cap →
      ∃ pre' pat' rest', (VideoRow.youtube_url
          ⟨"v1", "c2", "Lecture 1", "https://youtu.be/abc", 0⟩).toList =
            pre' ++ pat' ++ cap ++ rest' ∧
        (pat' = ytWatchPat ∨ pat' = ytShortPat) ∧ cap ≠ [] ∧
        (∀ d ∈ cap, isIdChar d = true) ∧
        (rest' = [] ∨ ∃ d t, rest' = d :: t ∧ isIdChar d = false)) ∧
    videoThumbnailRendered ⟨"v1", "c2", "Lecture 1", "https://youtu.be/abc", 0⟩ = true :=
  getYouTubeVideoId_spec ⟨"v1", "c2", "Lecture 1", "https://youtu.be/abc", 0⟩
    ("https://".toList) ytShortPat ("bc".toList) 'a' (by decide) (Or.inr rfl) (by decide)

/-! ## C5: uploadNote writes storage first, never compensates -/

/-- C5. With a valid form, `uploadNote` uploads the binary before inserting
the row: a failed upload leaves the state untouched (no notes row, nothing in
storage) whatever the insert flag says; a failed insert after a successful
upload leaves the uploaded file in storage with no compensating delete and no
notes row; and on full success the row is inserted alongside the stored
file. -/
theorem uploadNote_storage_first (form : NoteForm) (newId : String) (now : Nat)
    (db : Db) (ht : jsTrim form.title ≠ "") (hch : form.chapter_id ≠ "")
    (hf : form.file ≠ none) :
    (uploadNote form newId now false false db).db = db ∧
    (uploadNote form newId now false true db).db = db ∧
    (uploadNote form newId now true false db).db.notes = db.notes ∧
    (uploadNote form newId now true false db).db.storage =
      db.storage ++ [noteFileName now form] ∧
    (uploadNote form newId now true true db).db.storage =
      db.storage ++ [noteFileName now form] ∧
    (uploadNote form newId now true true db).db.notes =
      db.notes ++ [⟨newId, form.chapter_id, form.title,
        getPublicUrl (noteFileName now form), now⟩] := by
  have hcond : (jsTrim form.title == "" || form.chapter_id == "" ||
      form.file.isNone) = false := by
    simp [beq_eq_false_iff_ne, ht, hch, Option.isNone_iff_eq_none, hf,
      Option.isSome_iff_ne_none]
  refine ⟨?_, ?_, ?_, ?_, ?_, ?_⟩ <;> simp [uploadNote, hcond]

/-- Witness for C5 at a concrete valid form over `exDb`. -/
theorem uploadNote_storage_first_witness :
    (uploadNote ⟨"Algebra II", "c1", some "alg.pdf"⟩ "n2" 7 false false exDb).db = exDb ∧
    (uploadNote ⟨"Algebra II", "c1", some "alg.pdf"⟩ "n2" 7 false true exDb).db = exDb ∧
    (uploadNote ⟨"Algebra II", "c1", some "alg.pdf"⟩ "n2" 7 true false exDb).db.notes =
      exDb.notes ∧
    (uploadNote ⟨"Algebra II", "c1", some "alg.pdf"⟩ "n2" 7 true false exDb).db.storage =
      exDb.storage ++ [noteFileName 7 ⟨"Algebra II", "c1", some "alg.pdf"⟩] ∧
    (uploadNote ⟨"Algebra II", "c1", some "alg.pdf"⟩ "n2" 7 true true exDb).db.storage =
      exDb.storage ++ [noteFileName 7 ⟨"Algebra II", "c1", some "alg.pdf"⟩] ∧
    (uploadNote ⟨"Algebra II", "c1", some "alg.pdf"⟩ "n2" 7 true true exDb).db.notes =
      exDb.notes ++ [⟨"n2", "c1", "Algebra II",
        getPublicUrl (noteFileName 7 ⟨"Algebra II", "c1", some "alg.pdf"⟩), 7⟩] :=
  uploadNote_storage_first ⟨"Algebra II", "c1", some "alg.pdf"⟩ "n2" 7 exDb
    (by decide) (by decide) (by decide)

/-! ## C6: local validation blocks every create with state untouched -/

/-- C6. Each create operation validates its required fields locally; when
validation fails the handler returns before any storage or database request,
the state is unchanged, and the required-fields message is the one toast
surfaced — for every outcome the external calls could have had. -/
theorem create_validation_blocks :
    (∀ (form : SubjectForm) (newId : String) (now : Nat) (k : Bool) (db : Db),
      jsTrim form.name = "" →
        (createSubject form newId now k db).db = db ∧
        (createSubject form newId now k db).toasts = ["Subject name is required"]) ∧
    (∀ (form : ChapterForm) (newId : String) (now : Nat) (k : Bool) (db : Db),
      jsTrim form.title = "" ∨ form.subject_id = "" →
        (createChapter form newId now k db).db = db ∧
        (createChapter form newId now k db).toasts =
          ["Chapter title and subject are required"]) ∧
    (∀ (form : NoteForm) (newId : String) (now : Nat) (k k2 : Bool) (db : Db),
      jsTrim form.title = "" ∨ form.chapter_id = "" ∨ form.file = none →
        (uploadNote form newId now k k2 db).db = db ∧
        (uploadNote form newId now k k2 db).toasts =
          ["Title, chapter, and PDF file are required"]) ∧
    (∀ (form : VideoForm) (newId : String) (now : Nat) (k : Bool) (db : Db),
      jsTrim form.title = "" ∨ jsTrim form.youtube_url = "" ∨ form.chapter_id = "" →
        (createVideo form newId now k db).db = db ∧
        (createVideo form newId now k db).toasts =
          ["Title, YouTube URL, and chapter are required"]) := by
  refine ⟨?_, ?_, ?_, ?_⟩
  · intro form newId now k db h
    constructor <;> simp [createSubject, h]
  · intro form newId now k db h
    rcases h with h | h <;> constructor <;> simp [createChapter, h]
  · intro form newId now k k2 db h
    rcases h with h | h | h <;> constructor <;>
      simp [uploadNote, h, Option.isNone_iff_eq_none]
  · intro form newId now k db h
    rcases h with h | h | h <;> constructor <;> simp [createVideo, h]

/-- Witness for C6: one concretely invalid form per operation, over `exDb`. -/
theorem create_validation_blocks_witness :
    ((createSubject ⟨"", "d", ""⟩ "s9" 3 true exDb).db = exDb ∧
      (createSubject ⟨"", "d", ""⟩ "s9" 3 true exDb).toasts =
        ["Subject name is required"]) ∧
    ((createChapter ⟨"Algebra", "", ""⟩ "c9" 3 true exDb).db = exDb ∧
      (createChapter ⟨"Algebra", "", ""⟩ "c9" 3 true exDb).toasts =
        ["Chapter title and subject are required"]) ∧
    ((uploadNote ⟨"Intro", "c1", none⟩ "n9" 3 true true exDb).db = exDb ∧
      (uploadNote ⟨"Intro", "c1", none⟩ "n9" 3 true true exDb).toasts =
        ["Title, chapter, and PDF file are required"]) ∧
    ((createVideo ⟨" ", "youtu.be/abc", "c1"⟩ "v9" 3 true exDb).db = exDb ∧
      (createVideo ⟨" ", "youtu.be/abc", "c1"⟩ "v9" 3 true exDb).toasts =
        ["Title, YouTube URL, and chapter are required"]) :=
  ⟨create_validation_blocks.1 ⟨"", "d", ""⟩ "s9" 3 true exDb (by decide),
   create_validation_blocks.2.1 ⟨"Algebra", "", ""⟩ "c9" 3 true exDb (Or.inr rfl),
   create_validation_blocks.2.2.1 ⟨"Intro", "c1", none⟩ "n9" 3 true true exDb
     (Or.inr (Or.inr rfl)),
   create_validation_blocks.2.2.2 ⟨" ", "youtu.be/abc", "c1"⟩ "v9" 3 true exDb
     (Or.inl (by decide))⟩

/-! ## C3: self-demotion does not revoke the cached admin capability -/

/-- C3 evaluated at its failing input: the signed-in admin toggles their own
admin switch off and the database update succeeds.  Because AuthContext
provides no `refetchUserData`, the awaited call throws and the catch block
runs: the cached record still has `is_admin = true`, the route stays
`/admin`, and the only toast is the error toast — the claimed immediate
re-fetch and exit of the admin view do not happen. -/
theorem toggleUserAdmin_self_demotion_not_revoked :
    refetchUserDataDefined = false ∧
    (toggleUserAdmin "u1" true true none c3State).userData =
      some ⟨"u1", "admin@x.com", true, true, "admin", 0⟩ ∧
    (toggleUserAdmin "u1" true true none c3State).route = "/admin" ∧
    (toggleUserAdmin "u1" true true none c3State).toasts =
      ["Failed to update user admin status"] := by
  refine ⟨by decide, by decide, by decide, by decide⟩

end UniVerse
